import Mathlib

/-!
Verification development for the `aws-ai-cost-optimizer` repository.

The repository is a two-stage pipeline:
  * stage 1 (`lambda/cost_analyzer/handler.py`): collects EC2/EBS metrics,
    applies fixed threshold rules and stores an analysis snapshot;
  * stage 2 (`lambda/ai_recommender/handler.py`, `ai_client.py`): fetches the
    latest snapshot, builds a prompt, calls one of three text-generation
    backends and falls back to deterministic text on failure.

Modelling conventions:
  * Python numbers (ints and floats) are modelled as exact rationals `ℚ`;
    floating-point rounding is out of scope of this embedding.
  * Ambient effects are explicit parameters: `datetime.now()` values are
    passed as strings, and every external HTTP / AWS call is replaced by an
    explicit outcome value (`Except Unit …` for AWS queries caught by
    `try/except`, `NetOutcome` for the text-generation HTTP call).
  * Fallible Python code (code that can raise) is modelled with
    `Except String …`, the error string naming the exception.
  * `dict`-shaped data crossing the JSON boundary of stage 2 is modelled by
    the dynamic value type `PyVal`, so that snapshots of unexpected shape can
    be expressed.  Data produced internally by stage 1 keeps typed records.
-/

/-! ### Small Python-semantics helpers -/

/-- Floor of a rational, computed from numerator and denominator. -/
def ratFloor (q : ℚ) : Int := q.num.fdiv q.den

/-- Python `int(x)` on a float/number: truncation toward zero. -/
def pyInt (q : ℚ) : Int := if 0 ≤ q then ratFloor q else -(ratFloor (-q))

/-- Round-half-to-even at integer precision, as used by Python `round` and
by `format(x, '.2f')`. -/
def roundHalfEven (q : ℚ) : Int :=
  if q - (ratFloor q : ℚ) < 1/2 then ratFloor q
  else if (1/2 : ℚ) < q - (ratFloor q : ℚ) then ratFloor q + 1
  else if ratFloor q % 2 = 0 then ratFloor q else ratFloor q + 1

/-- Python `round(x, 2)` on our rational model of floats. -/
def round2 (q : ℚ) : ℚ := (roundHalfEven (q * 100) : ℚ) / 100

/-- Left-pad a number below 100 to two digits. -/
def twoDigits (k : Nat) : String := if k < 10 then "0" ++ toString k else toString k

/-- Python `format(x, '.2f')`: the number rounded (half-even) to two decimal
places, rendered with exactly two fractional digits. -/
def fmt2 (q : ℚ) : String :=
  (if roundHalfEven (q * 100) < 0 then "-" else "")
    ++ toString ((roundHalfEven (q * 100)).natAbs / 100)
    ++ "." ++ twoDigits ((roundHalfEven (q * 100)).natAbs % 100)

/-- Fractional decimal digits of a rational in `[0, 1)`, most significant
first, at most `fuel` digits, trailing zeros omitted. -/
def fracDigits : Nat → ℚ → List Char
  | 0, _ => []
  | fuel + 1, q =>
    if q = 0 then []
    else
      Char.ofNat (48 + (ratFloor (q * 10)).toNat) :: fracDigits fuel (q * 10 - (ratFloor (q * 10) : ℚ))

/-- Model of Python `str()` on a float: decimal rendering with at least one
fractional digit (`str(5.0) = "5.0"`).  Binary floating-point artefacts of
`repr` are not modelled. -/
def ratStr (q : ℚ) : String :=
  (if q < 0 then "-" else "")
    ++ toString (ratFloor |q|).natAbs
    ++ "."
    ++ (if (fracDigits 17 (|q| - (ratFloor |q| : ℚ))).isEmpty then "0"
        else String.mk (fracDigits 17 (|q| - (ratFloor |q| : ℚ))))

/-- JSON rendering of a number: integers without a decimal point, other
rationals in decimal notation. -/
def ratJson (q : ℚ) : String := if q.den = 1 then toString q.num else ratStr q

/-- Escape one character for a JSON string literal. -/
def jsonEscapeChar (c : Char) : String :=
  if c = '\\' then "\\\\"
  else if c = '\"' then "\\\""
  else if c = '\n' then "\\n"
  else if c = '\t' then "\\t"
  else if c = '\r' then "\\r"
  else String.singleton c

/-- Escape a string for inclusion in a JSON string literal. -/
def jsonEscape (s : String) : String := String.join (s.data.map jsonEscapeChar)

/-- `n` spaces, used for JSON indentation. -/
def spaces (n : Nat) : String := String.mk (List.replicate n ' ')

/-- Python `str.lower()` (character-wise; the strings it is applied to here
are ASCII). -/
def pyLower (s : String) : String := String.mk (s.data.map Char.toLower)

/-- Python `str.upper()` (character-wise; the strings it is applied to here
are ASCII). -/
def pyUpper (s : String) : String := String.mk (s.data.map Char.toUpper)

/-! ### Substring ("embeds") machinery -/

/-- `segIn seg s` states that `seg` occurs contiguously inside `s`. -/
def segIn (seg s : String) : Prop :=
  ∃ a b : List Char, s.data = a ++ (seg.data ++ b)

theorem str_append_data (s t : String) : (s ++ t).data = s.data ++ t.data :=
  String.data_append s t

theorem str_append_assoc (a b c : String) : a ++ b ++ c = a ++ (b ++ c) := by
  apply String.ext
  simp [str_append_data]

theorem segIn_here (seg x y : String) : segIn seg (x ++ (seg ++ y)) :=
  ⟨x.data, y.data, by simp [str_append_data]⟩

theorem segIn_append_left (seg t u : String) (h : segIn seg t) : segIn seg (t ++ u) := by
  obtain ⟨a, b, hb⟩ := h
  exact ⟨a, b ++ u.data, by simp [str_append_data, hb]⟩

theorem segIn_append_right (seg t u : String) (h : segIn seg t) : segIn seg (u ++ t) := by
  obtain ⟨a, b, hb⟩ := h
  exact ⟨u.data ++ a, b, by simp [str_append_data, hb]⟩

/-! ### Stage 1 data model (`cost_analyzer/handler.py`) -/

/-- One EC2 instance sample, as assembled by `get_ec2_metrics`. -/
structure Ec2Instance where
  instance_id : String
  instance_type : String
  cpu_average : ℚ
  cpu_max : ℚ
  launch_time : String
  deriving DecidableEq

/-- One EBS volume sample, as assembled by `get_ebs_metrics`. -/
structure EbsVolume where
  volume_id : String
  size_gb : Nat
  state : String
  is_attached : Bool
  created_time : String
  deriving DecidableEq

/-- The dictionary built by `collect_aws_metrics`. -/
structure MetricsData where
  ec2_instances : List Ec2Instance
  ebs_volumes : List EbsVolume
  timestamp : String
  deriving DecidableEq

/-- One recommendation dictionary produced by `analyze_metrics`.  The two
shapes produced by the code (`ec2_rightsize` / `ebs_cleanup`) share the common
keys and differ in the optional ones. -/
structure Recommendation where
  type : String
  severity : String
  resource_id : String
  current_type : Option String
  cpu_utilization : Option ℚ
  size_gb : Option Nat
  message : String
  estimated_savings : ℚ
  deriving DecidableEq

/-- The analysis dictionary returned by `analyze_metrics`. -/
structure AnalysisResults where
  timestamp : String
  metrics : MetricsData
  recommendations : List Recommendation
  total_potential_savings : ℚ
  deriving DecidableEq

/-- The recommendation appended for an instance with `cpu_average < 15`
(`handler.py` lines 198–207).  The loop variable is called `instance` in the
source; that word is a Lean keyword, so `inst` is used here. -/
def rightsize_rec (inst : Ec2Instance) : Recommendation :=
  { type := "ec2_rightsize"
    severity := "medium"
    resource_id := inst.instance_id
    current_type := some inst.instance_type
    cpu_utilization := some inst.cpu_average
    size_gb := Option.none
    message := "EC2 instance " ++ inst.instance_id ++ " has low CPU utilization ("
      ++ ratStr inst.cpu_average ++ "%). Consider downsizing."
    estimated_savings := 50 }

/-- The recommendation appended for an unattached volume
(`handler.py` lines 212–220). -/
def cleanup_rec (volume : EbsVolume) : Recommendation :=
  { type := "ebs_cleanup"
    severity := "low"
    resource_id := volume.volume_id
    current_type := Option.none
    cpu_utilization := Option.none
    size_gb := some volume.size_gb
    message := "EBS volume " ++ volume.volume_id ++ " (" ++ toString volume.size_gb
      ++ " GB) is unattached and costing money."
    estimated_savings := (volume.size_gb : ℚ) * 0.10 }

/-- `analyze_metrics` (`handler.py` lines 188–227).  The EC2 loop and the EBS
loop appending to `recommendations` are rendered as `filter`/`map`; `now` is
the ambient `datetime.now().isoformat()`. -/
def analyze_metrics (now : String) (metrics : MetricsData) : AnalysisResults :=
  { timestamp := now
    metrics := metrics
    recommendations :=
      (metrics.ec2_instances.filter (fun inst => inst.cpu_average < 15)).map rightsize_rec
        ++ (metrics.ebs_volumes.filter (fun v => !v.is_attached)).map cleanup_rec
    total_potential_savings :=
      (((metrics.ec2_instances.filter (fun inst => inst.cpu_average < 15)).map rightsize_rec
          ++ (metrics.ebs_volumes.filter (fun v => !v.is_attached)).map cleanup_rec).map
        (fun r => r.estimated_savings)).sum }

/-! ### Stage 1 metric collection (`cost_analyzer/handler.py` lines 59–185) -/

/-- One CloudWatch datapoint (keys `Average` / `Maximum`). -/
structure Datapoint where
  Average : ℚ
  Maximum : ℚ
  deriving DecidableEq

/-- The `{'average': …, 'max': …}` dictionary of `get_cloudwatch_metric`. -/
structure CpuStats where
  average : ℚ
  max : ℚ
  deriving DecidableEq

/-- `get_cloudwatch_metric` (lines 154–185): the CloudWatch call is an
explicit outcome; an exception or an empty datapoint list both give zeros. -/
def get_cloudwatch_metric (callOutcome : Except Unit (List Datapoint)) : CpuStats :=
  match callOutcome with
  | .error _ => { average := 0, max := 0 }
  | .ok [] => { average := 0, max := 0 }
  | .ok (d :: ds) =>
    { average := round2 (((d :: ds).map (fun x => x.Average)).sum / ((d :: ds).length : ℚ))
      max := round2 ((ds.map (fun x => x.Maximum)).foldl max d.Maximum) }

/-- One instance as returned by `describe_instances`, together with the
outcome of that instance's CloudWatch query. -/
structure Ec2Query where
  instance_id : String
  instance_type : String
  launch_time : String
  cpu_outcome : Except Unit (List Datapoint)

/-- `get_ec2_metrics` (lines 75–115): a failing `describe_instances` call is
caught and degrades to `[]`. -/
def get_ec2_metrics (describeOutcome : Except Unit (List Ec2Query)) : List Ec2Instance :=
  match describeOutcome with
  | .error _ => []
  | .ok qs =>
    qs.map fun q =>
      { instance_id := q.instance_id
        instance_type := q.instance_type
        cpu_average := (get_cloudwatch_metric q.cpu_outcome).average
        cpu_max := (get_cloudwatch_metric q.cpu_outcome).max
        launch_time := q.launch_time }

/-- One volume as returned by `describe_volumes`. -/
structure VolumeDesc where
  VolumeId : String
  Size : Nat
  State : String
  Attachments : Nat
  CreateTime : String

/-- `get_ebs_metrics` (lines 118–151): a failing `describe_volumes` call is
caught and degrades to `[]`; `is_attached` is `len(attachments) > 0`. -/
def get_ebs_metrics (describeOutcome : Except Unit (List VolumeDesc)) : List EbsVolume :=
  match describeOutcome with
  | .error _ => []
  | .ok vs =>
    vs.map fun v =>
      { volume_id := v.VolumeId
        size_gb := v.Size
        state := v.State
        is_attached := decide (0 < v.Attachments)
        created_time := v.CreateTime }

/-- `collect_aws_metrics` (lines 59–72): the two resource classes are
collected independently. -/
def collect_aws_metrics (ec2Outcome : Except Unit (List Ec2Query))
    (ebsOutcome : Except Unit (List VolumeDesc)) (now : String) : MetricsData :=
  { ec2_instances := get_ec2_metrics ec2Outcome
    ebs_volumes := get_ebs_metrics ebsOutcome
    timestamp := now }

/-! ### Persistence (`cost_analyzer/handler.py` lines 230–253 and
`ai_recommender/handler.py` lines 76–112) -/

/-- The DynamoDB item written by `store_results`.  The `data` attribute is
the snapshot JSON-serialized; since stage 2 parses it straight back with
`json.loads`, the serialize/parse round trip is modelled as the identity and
the field keeps the typed snapshot. -/
structure StoredRecord where
  id : String
  timestamp : String
  recommendations_count : Nat
  total_potential_savings : Int
  data : AnalysisResults
  deriving DecidableEq

/-- `store_results` (lines 230–253): the item for one snapshot; `now_id` is
the ambient `datetime.now().strftime('%Y-%m-%d_%H-%M-%S')`. -/
def store_results (results : AnalysisResults) (now_id : String) : StoredRecord :=
  { id := now_id
    timestamp := results.timestamp
    recommendations_count := results.recommendations.length
    total_potential_savings := pyInt results.total_potential_savings
    data := results }

/-- The projected record returned by `get_latest_analysis`
(`ProjectionExpression='id, #ts, #data, recommendations_count'`), with the
`data` attribute parsed back into the snapshot. -/
structure FetchedRecord where
  id : String
  timestamp : String
  data : AnalysisResults
  recommendations_count : Nat
  deriving DecidableEq

/-- Stable insertion of a record into a timestamp-descending list, matching
Python's stable `sorted(…, key=lambda x: x['timestamp'], reverse=True)`. -/
def insertDesc (r : StoredRecord) : List StoredRecord → List StoredRecord
  | [] => [r]
  | x :: xs => if x.timestamp ≤ r.timestamp then r :: x :: xs else x :: insertDesc r xs

/-- `sorted(items, key=lambda x: x['timestamp'], reverse=True)`. -/
def sortByTimestampDesc (items : List StoredRecord) : List StoredRecord :=
  items.foldr insertDesc []

/-- `get_latest_analysis` (`ai_recommender/handler.py` lines 76–112): the
scan outcome is explicit; a raised exception or an empty item list both give
`None`. -/
def get_latest_analysis (scanOutcome : Except Unit (List StoredRecord)) : Option FetchedRecord :=
  match scanOutcome with
  | .error _ => Option.none
  | .ok items =>
    if items.isEmpty then Option.none
    else
      match sortByTimestampDesc items with
      | [] => Option.none
      | latest :: _ =>
        some { id := latest.id
               timestamp := latest.timestamp
               data := latest.data
               recommendations_count := latest.recommendations_count }

/-! ### Dynamic Python values (the JSON boundary of stage 2) -/

/-- A dynamic (JSON-able) Python value, the shape of the parsed `data`
dictionary handed to `AIClient.generate_report`. -/
inductive PyVal where
  | none
  | bool (b : Bool)
  | int (n : Int)
  | float (q : ℚ)
  | str (s : String)
  | list (xs : List PyVal)
  | dict (kvs : List (String × PyVal))

/-- Association-list lookup for `PyVal.dict`, first binding wins (Python
dict literals here never repeat keys). -/
def lookupStr : List (String × PyVal) → String → Option PyVal
  | [], _ => Option.none
  | kv :: rest, k => if kv.1 = k then some kv.2 else lookupStr rest k

/-- Python `d.get(k, default)`: only dictionaries have `.get`; any other
value raises `AttributeError`. -/
def dict_get (v : PyVal) (k : String) (dflt : PyVal) : Except String PyVal :=
  match v with
  | .dict kvs => .ok ((lookupStr kvs k).getD dflt)
  | _ => .error ("AttributeError: object has no attribute get (key " ++ k ++ ")")

/-- Python `len(x)` for the values it is applied to here. -/
def pyLen (v : PyVal) : Except String Nat :=
  match v with
  | .list xs => .ok xs.length
  | .dict kvs => .ok kvs.length
  | .str s => .ok s.length
  | _ => .error "TypeError: object has no len"

/-- Python `d[k]` subscription on a parsed JSON object. -/
def pyItem (v : PyVal) (k : String) : Except String PyVal :=
  match v with
  | .dict kvs =>
    match lookupStr kvs k with
    | some x => .ok x
    | Option.none => .error ("KeyError: " ++ k)
  | _ => .error "TypeError: object is not subscriptable"

/-- Python `l[i]` indexing on a parsed JSON array. -/
def pyAt (v : PyVal) (i : Nat) : Except String PyVal :=
  match v with
  | .list xs =>
    match xs.get? i with
    | some x => .ok x
    | Option.none => .error "IndexError: list index out of range"
  | _ => .error "TypeError: object is not a list"

/-- Python `format(x, '.2f')` as used in the f-strings: numbers (and bools,
which are ints) format; any other value raises `ValueError`. -/
def pyFormat2 (v : PyVal) : Except String String :=
  match v with
  | .int n => .ok (fmt2 (n : ℚ))
  | .float q => .ok (fmt2 q)
  | .bool b => .ok (fmt2 (if b then 1 else 0))
  | _ => .error "ValueError: Unknown format code f"

mutual

/-- `json.dumps(v, indent=2)` rendered at indentation level `ind`.
Numbers are rendered by `ratJson`; non-ASCII escaping (`ensure_ascii`) is
not modelled. -/
def pyDumpsAt (ind : Nat) (v : PyVal) : String :=
  match v with
  | .none => "null"
  | .bool b => if b then "true" else "false"
  | .int n => toString n
  | .float q => ratJson q
  | .str s => "\"" ++ jsonEscape s ++ "\""
  | .list [] => "[]"
  | .list (x :: xs) => "[\n" ++ pyDumpsItems (ind + 2) x xs ++ "\n" ++ spaces ind ++ "]"
  | .dict [] => "\x7b\x7d"
  | .dict ((k, w) :: kvs) => "\x7b\n" ++ pyDumpsKvs (ind + 2) k w kvs ++ "\n" ++ spaces ind ++ "\x7d"
termination_by sizeOf v

/-- The comma-separated, indented elements of a JSON array. -/
def pyDumpsItems (ind : Nat) (x : PyVal) (xs : List PyVal) : String :=
  match xs with
  | [] => spaces ind ++ pyDumpsAt ind x
  | y :: ys => spaces ind ++ pyDumpsAt ind x ++ ",\n" ++ pyDumpsItems ind y ys
termination_by sizeOf x + sizeOf xs

/-- The comma-separated, indented members of a JSON object. -/
def pyDumpsKvs (ind : Nat) (k : String) (w : PyVal) (kvs : List (String × PyVal)) : String :=
  match kvs with
  | [] => spaces ind ++ "\"" ++ jsonEscape k ++ "\": " ++ pyDumpsAt ind w
  | (k2, w2) :: rest =>
    spaces ind ++ "\"" ++ jsonEscape k ++ "\": " ++ pyDumpsAt ind w ++ ",\n"
      ++ pyDumpsKvs ind k2 w2 rest
termination_by sizeOf w + sizeOf kvs

end

/-- `json.dumps(v, indent=2)` at top level. -/
def pyDumps (v : PyVal) : String := pyDumpsAt 0 v

/-! ### `AIClient` (`ai_recommender/ai_client.py`) -/

/-- Outcome of one HTTP request made through `requests.post` followed by
`raise_for_status()`: either some `requests.exceptions.RequestException`
(connection error, timeout, or non-2xx status) or a 2xx response with a
parsed JSON body. -/
inductive NetOutcome where
  | requestError
  | success (body : PyVal)

/-- The fixed text of `AIClient._fallback_report` (lines 197–218), copied
verbatim from the source including its mojibake emoji bytes. -/
def fallback_text : String :=
  "\nü§ñ AWS COST OPTIMIZATION REPORT (Fallback Mode)\n\n‚ö†Ô∏è AI service temporarily unavailable. Basic analysis provided:\n\nüìä ANALYSIS COMPLETED\nYour infrastructure has been analyzed. Check the DynamoDB table for detailed metrics.\n\nüí° RECOMMENDATIONS\nReview the recommendations stored in the database for cost savings opportunities.\n\nüîß NEXT STEPS\n1. Check CloudWatch Logs for detailed metrics\n2. Review DynamoDB entries for full analysis\n3. Retry AI analysis when service is available\n\nFor detailed insights, please check your DynamoDB table.\n        "

/-- `AIClient._fallback_report`: ignores its `prompt` argument and returns
the fixed text. -/
def _fallback_report (_prompt : String) : String := fallback_text

/-- `AIClient._build_prompt` (lines 63–93).  The `.get` calls and the
f-string interpolations are evaluated in source order, so a non-numeric
`total_potential_savings` raises only after the two counts are computed. -/
def _build_prompt (metrics_data : PyVal) : Except String String := do
  let recommendations ← dict_get metrics_data "recommendations" (.list [])
  let total_savings ← dict_get metrics_data "total_potential_savings" (.int 0)
  let m1 ← dict_get metrics_data "metrics" (.dict [])
  let l1 ← dict_get m1 "ec2_instances" (.list [])
  let ec2_count ← pyLen l1
  let m2 ← dict_get metrics_data "metrics" (.dict [])
  let l2 ← dict_get m2 "ebs_volumes" (.list [])
  let ebs_count ← pyLen l2
  let totalStr ← pyFormat2 total_savings
  Except.ok
    ("You are an AWS cost optimization expert. Analyze this infrastructure data and create a clear, actionable cost optimization report.\n\nINFRASTRUCTURE SUMMARY:\n- EC2 Instances: "
      ++ toString ec2_count
      ++ "\n- EBS Volumes: "
      ++ toString ebs_count
      ++ "\n- Total Potential Savings: $"
      ++ totalStr
      ++ "/month\n\nRECOMMENDATIONS FOUND:\n"
      ++ pyDumps recommendations
      ++ "\n\nCreate a professional cost optimization report with:\n1. Executive Summary (2-3 sentences)\n2. Top 3 Priority Actions (with specific resource IDs and savings)\n3. Quick Wins (easy to implement)\n4. Long-term Optimizations\n\nUse clear formatting with emojis for readability. Be specific and actionable.\nKeep the tone professional but friendly.")

/-- Extraction `result['choices'][0]['message']['content']` used by the two
chat-completion backends; a `KeyError`/`IndexError` here is not caught. -/
def extract_chat_content (body : PyVal) : Except String PyVal := do
  let choices ← pyItem body "choices"
  let c0 ← pyAt choices 0
  let msg ← pyItem c0 "message"
  pyItem msg "content"

/-- `AIClient._call_groq` (lines 95–131): any `RequestException` is caught
and answered with the fallback report. -/
def _call_groq (prompt : String) (net : NetOutcome) : Except String PyVal :=
  match net with
  | .requestError => .ok (.str (_fallback_report prompt))
  | .success body => extract_chat_content body

/-- `AIClient._call_openrouter` (lines 133–171), identical error policy. -/
def _call_openrouter (prompt : String) (net : NetOutcome) : Except String PyVal :=
  match net with
  | .requestError => .ok (.str (_fallback_report prompt))
  | .success body => extract_chat_content body

/-- `AIClient._call_ollama` (lines 173–195): extracts `result['response']`. -/
def _call_ollama (prompt : String) (net : NetOutcome) : Except String PyVal :=
  match net with
  | .requestError => .ok (.str (_fallback_report prompt))
  | .success body => pyItem body "response"

/-- The configuration state of a constructed `AIClient`.  Temperature and
max-token settings only enter the outbound HTTP payload, which is abstracted
by `NetOutcome`, so they are not carried here. -/
structure AIClient where
  provider : String
  api_key : Option String
  model : String
  deriving DecidableEq

/-- The environment variables read by the `ai_recommender` code. -/
structure Env where
  AI_PROVIDER : Option String := Option.none
  AI_MODEL : Option String := Option.none
  GROQ_API_KEY : Option String := Option.none
  OPENROUTER_API_KEY : Option String := Option.none

/-- `AIClient._get_api_key` (lines 24–33): raises `ValueError` on an
unsupported provider name. -/
def _get_api_key (provider : String) (env : Env) : Except String (Option String) :=
  if provider = "groq" then .ok env.GROQ_API_KEY
  else if provider = "openrouter" then .ok env.OPENROUTER_API_KEY
  else if provider = "ollama" then .ok Option.none
  else .error ("Unsupported AI provider: " ++ provider)

/-- `AIClient._get_default_model` (lines 35–42). -/
def _get_default_model (provider : String) : String :=
  if provider = "groq" then "llama-3.1-70b-versatile"
  else if provider = "openrouter" then "anthropic/claude-3.5-sonnet"
  else if provider = "ollama" then "llama3.1"
  else "llama-3.1-70b-versatile"

/-- `AIClient.__init__` (lines 17–22): provider defaulting and lowering,
then `_get_api_key` — which is where an unsupported name raises. -/
def mkAIClient (env : Env) : Except String AIClient := do
  let provider := pyLower (env.AI_PROVIDER.getD "groq")
  let api_key ← _get_api_key provider env
  .ok { provider := provider
        api_key := api_key
        model := env.AI_MODEL.getD (_get_default_model provider) }

/-- `AIClient.generate_report` (lines 44–61): build the prompt, then
dispatch on the provider string.  The outcome of the dispatched HTTP call is
the explicit `net` argument. -/
def generate_report (c : AIClient) (metrics_data : PyVal) (net : NetOutcome) :
    Except String PyVal := do
  let prompt ← _build_prompt metrics_data
  if c.provider = "groq" then _call_groq prompt net
  else if c.provider = "openrouter" then _call_openrouter prompt net
  else if c.provider = "ollama" then _call_ollama prompt net
  else .error ("Unsupported provider: " ++ c.provider)

/-! ### Typed snapshots as parsed JSON values

Stage 1 serializes the analysis dictionary with `json.dumps` and stage 2
parses it back with `json.loads`; the composite is rendered here as a direct
conversion from the typed snapshot to `PyVal`. -/

/-- One EC2 sample as a parsed JSON object. -/
def ec2_to_py (i : Ec2Instance) : PyVal :=
  .dict [("instance_id", .str i.instance_id), ("instance_type", .str i.instance_type),
         ("cpu_average", .float i.cpu_average), ("cpu_max", .float i.cpu_max),
         ("launch_time", .str i.launch_time)]

/-- One EBS sample as a parsed JSON object. -/
def vol_to_py (v : EbsVolume) : PyVal :=
  .dict [("volume_id", .str v.volume_id), ("size_gb", .int v.size_gb), ("state", .str v.state),
         ("is_attached", .bool v.is_attached), ("created_time", .str v.created_time)]

/-- The metrics dictionary as a parsed JSON object. -/
def metrics_to_py (m : MetricsData) : PyVal :=
  .dict [("ec2_instances", .list (m.ec2_instances.map ec2_to_py)),
         ("ebs_volumes", .list (m.ebs_volumes.map vol_to_py)),
         ("timestamp", .str m.timestamp)]

/-- One recommendation as a parsed JSON object, keys in the insertion order
of `analyze_metrics` (the optional keys are the type-specific ones). -/
def rec_to_py (r : Recommendation) : PyVal :=
  .dict ([("type", .str r.type), ("severity", .str r.severity), ("resource_id", .str r.resource_id)]
    ++ (match r.current_type with | some t => [("current_type", PyVal.str t)] | Option.none => [])
    ++ (match r.cpu_utilization with | some q => [("cpu_utilization", PyVal.float q)] | Option.none => [])
    ++ (match r.size_gb with | some n => [("size_gb", PyVal.int (n : Int))] | Option.none => [])
    ++ [("message", .str r.message), ("estimated_savings", PyVal.float r.estimated_savings)])

/-- A whole analysis snapshot as the parsed JSON dictionary handed to
`generate_report`. -/
def analysis_to_py (d : AnalysisResults) : PyVal :=
  .dict [("timestamp", .str d.timestamp), ("metrics", metrics_to_py d.metrics),
         ("recommendations", .list (d.recommendations.map rec_to_py)),
         ("total_potential_savings", .float d.total_potential_savings)]

/-- The prompt `_build_prompt` produces on a well-shaped snapshot. -/
def promptOf (d : AnalysisResults) : String :=
  "You are an AWS cost optimization expert. Analyze this infrastructure data and create a clear, actionable cost optimization report.\n\nINFRASTRUCTURE SUMMARY:\n- EC2 Instances: "
    ++ toString (d.metrics.ec2_instances.map ec2_to_py).length
    ++ "\n- EBS Volumes: "
    ++ toString (d.metrics.ebs_volumes.map vol_to_py).length
    ++ "\n- Total Potential Savings: $"
    ++ fmt2 d.total_potential_savings
    ++ "/month\n\nRECOMMENDATIONS FOUND:\n"
    ++ pyDumps (.list (d.recommendations.map rec_to_py))
    ++ "\n\nCreate a professional cost optimization report with:\n1. Executive Summary (2-3 sentences)\n2. Top 3 Priority Actions (with specific resource IDs and savings)\n3. Quick Wins (easy to implement)\n4. Long-term Optimizations\n\nUse clear formatting with emojis for readability. Be specific and actionable.\nKeep the tone professional but friendly."

theorem build_prompt_analysis (d : AnalysisResults) :
    _build_prompt (analysis_to_py d) = .ok (promptOf d) := rfl

/-! ### Stage 2 handler (`ai_recommender/handler.py`) -/

/-- The 59-character box-drawing rule used by the pipeline fallback report. -/
def barLine : String := String.mk (List.replicate 59 '═')

/-- One numbered entry of the pipeline fallback report
(`generate_fallback_report` loop body, lines 162–166). -/
def fallback_rec_line (idx : Nat) (rec : Recommendation) : String :=
  toString idx ++ ". " ++ pyUpper rec.type ++ "\n   Resource: " ++ rec.resource_id
    ++ "\n   Savings: $" ++ fmt2 rec.estimated_savings ++ "/month\n   " ++ rec.message ++ "\n\n"

/-- The rendered entries for `recommendations[:5]`, numbered from 1. -/
def fallback_rec_lines (recs : List Recommendation) : String :=
  String.join ((recs.take 5).enum.map (fun p => fallback_rec_line (p.1 + 1) p.2))

/-- `generate_fallback_report` (lines 140–177); `today` is the ambient
`datetime.now().strftime('%B %d, %Y')`.  The typed snapshot always carries
the keys the Python `.get` calls default. -/
def generate_fallback_report (analysis_data : FetchedRecord) (today : String) : String :=
  "\n" ++ barLine ++ "\n AWS COST OPTIMIZATION REPORT\n " ++ today ++ "\n" ++ barLine
    ++ "\n\n💰 POTENTIAL MONTHLY SAVINGS: $"
    ++ fmt2 analysis_data.data.total_potential_savings
    ++ "\n\n📊 RECOMMENDATIONS FOUND: "
    ++ toString analysis_data.data.recommendations.length
    ++ "\n\n"
    ++ (if analysis_data.data.recommendations.isEmpty then
          "✅ No optimization opportunities found at this time.\n"
            ++ "Your infrastructure appears well-optimized!\n\n"
        else "🎯 TOP RECOMMENDATIONS:\n\n" ++ fallback_rec_lines analysis_data.data.recommendations)
    ++ "\n" ++ barLine ++ "\nNext analysis: Next scheduled run\n" ++ barLine ++ "\n"

/-- `generate_ai_report` (lines 115–137): every exception — including the
`ValueError` raised by `AIClient()` on an unsupported provider — is caught,
and the pipeline fallback report is returned instead. -/
def generate_ai_report (analysis_data : FetchedRecord) (env : Env) (net : NetOutcome)
    (today : String) : PyVal :=
  match mkAIClient env with
  | .error _ => .str (generate_fallback_report analysis_data today)
  | .ok c =>
    match generate_report c (analysis_to_py analysis_data.data) net with
    | .error _ => .str (generate_fallback_report analysis_data today)
    | .ok v => v

/-- The `{statusCode, body}` response of a handler; the JSON body is kept as
its message string. -/
structure LambdaResponse where
  statusCode : Nat
  body : String
  deriving DecidableEq

/-- `lambda_handler` of `ai_recommender/handler.py` (lines 27–73).  The S3
archive, SNS notify and DynamoDB update steps are best-effort external
writes and do not influence the response. -/
def ai_lambda_handler (scanOutcome : Except Unit (List StoredRecord)) (env : Env)
    (net : NetOutcome) (today : String) : LambdaResponse :=
  match get_latest_analysis scanOutcome with
  | Option.none => { statusCode := 404, body := "No analysis data found" }
  | some latest =>
    let _report := generate_ai_report latest env net today
    { statusCode := 200, body := "AI report generated successfully" }

/-! ### Claims -/

/-- The boundary sample with `cpu_average = 14.9`. -/
def sample149 : Ec2Instance :=
  { instance_id := "i-149", instance_type := "t3.micro", cpu_average := 14.9, cpu_max := 40,
    launch_time := "lt" }

/-- The boundary sample with `cpu_average = 15.0`. -/
def sample150 : Ec2Instance :=
  { instance_id := "i-150", instance_type := "t3.micro", cpu_average := 15.0, cpu_max := 40,
    launch_time := "lt" }

/-- The end-to-end input: two compute samples (5% and 40% CPU) and one
unattached 100 GB volume. -/
def e2e_metrics : MetricsData :=
  { ec2_instances :=
      [{ instance_id := "i-low", instance_type := "t3.large", cpu_average := 5, cpu_max := 20,
         launch_time := "lt1" },
       { instance_id := "i-high", instance_type := "t3.large", cpu_average := 40, cpu_max := 90,
         launch_time := "lt2" }]
    ebs_volumes :=
      [{ volume_id := "vol-1", size_gb := 100, state := "available", is_attached := false,
         created_time := "ct" }]
    timestamp := "tm" }

/-- The snapshot the analyzer produces on the end-to-end input. -/
def e2e_snapshot : AnalysisResults := analyze_metrics "t0" e2e_metrics

/-- C1: a single compute sample yields a rightsize recommendation with
savings 50 exactly when `cpu_average < 15`; the boundary samples 14.9 / 15.0
behave as claimed; and the end-to-end input yields exactly one rightsize and
one cleanup recommendation with total savings 60. -/
theorem C1_rightsize_threshold_and_e2e :
    (∀ (i : Ec2Instance) (now ts : String),
      (∃ r : Recommendation,
          (analyze_metrics now
              { ec2_instances := [i], ebs_volumes := [], timestamp := ts }).recommendations = [r]
            ∧ r.type = "ec2_rightsize" ∧ r.severity = "medium" ∧ r.estimated_savings = 50)
        ↔ i.cpu_average < 15)
    ∧ (analyze_metrics "t0"
          { ec2_instances := [sample149], ebs_volumes := [], timestamp := "t0" }).recommendations.map
        (fun r => (r.type, r.estimated_savings)) = [("ec2_rightsize", (50 : ℚ))]
    ∧ (analyze_metrics "t0"
          { ec2_instances := [sample150], ebs_volumes := [], timestamp := "t0" }).recommendations = []
    ∧ e2e_snapshot.recommendations.map (fun r => (r.type, r.resource_id, r.estimated_savings))
        = [("ec2_rightsize", "i-low", (50 : ℚ)), ("ebs_cleanup", "vol-1", (10 : ℚ))]
    ∧ e2e_snapshot.total_potential_savings = 60 := by
  refine ⟨?_, by with_unfolding_all decide, by with_unfolding_all decide,
    by with_unfolding_all decide, by with_unfolding_all decide⟩
  intro i now ts
  constructor
  · rintro ⟨r, hr, -, -, -⟩
    by_contra h
    have hrec :
        (analyze_metrics now
            { ec2_instances := [i], ebs_volumes := [], timestamp := ts }).recommendations = [] := by
      simp [analyze_metrics, List.filter_cons, List.filter_nil, h]
    rw [hrec] at hr
    exact List.cons_ne_nil r [] hr.symm
  · intro h
    refine ⟨rightsize_rec i, ?_, rfl, rfl, rfl⟩
    simp [analyze_metrics, List.filter_cons, List.filter_nil, h]

/-- C1 witness: the 14.9% sample concretely satisfies the left side of the
equivalence. -/
theorem C1_rightsize_threshold_and_e2e_witness :
    ∃ r : Recommendation,
      (analyze_metrics "t0"
          { ec2_instances := [sample149], ebs_volumes := [], timestamp := "t0" }).recommendations = [r]
        ∧ r.type = "ec2_rightsize" ∧ r.severity = "medium" ∧ r.estimated_savings = 50 :=
  (C1_rightsize_threshold_and_e2e.1 sample149 "t0" "t0").2 (by with_unfolding_all decide)

/-- C2: for every metrics input the snapshot total is the exact sum of the
recommendation savings, the total is non-negative, and the empty input gives
no recommendations and total 0. -/
theorem C2_total_is_exact_sum_and_nonneg (metrics : MetricsData) (now : String) :
    (analyze_metrics now metrics).total_potential_savings
        = ((analyze_metrics now metrics).recommendations.map (fun r => r.estimated_savings)).sum
      ∧ 0 ≤ (analyze_metrics now metrics).total_potential_savings
      ∧ (analyze_metrics "t"
          { ec2_instances := [], ebs_volumes := [], timestamp := "t" }).recommendations = []
      ∧ (analyze_metrics "t"
          { ec2_instances := [], ebs_volumes := [], timestamp := "t" }).total_potential_savings = 0 := by
  refine ⟨rfl, ?_, rfl, rfl⟩
  have h : ∀ r ∈ (analyze_metrics now metrics).recommendations, 0 ≤ r.estimated_savings := by
    intro r hr
    simp only [analyze_metrics, List.mem_append, List.mem_map] at hr
    rcases hr with ⟨i, -, rfl⟩ | ⟨v, -, rfl⟩
    · norm_num [rightsize_rec]
    · have hv : (0 : ℚ) ≤ (v.size_gb : ℚ) := Nat.cast_nonneg _
      have h10 : (0 : ℚ) ≤ 0.10 := by norm_num
      simpa [cleanup_rec] using mul_nonneg hv h10
  refine List.sum_nonneg ?_
  intro x hx
  obtain ⟨r, hr, rfl⟩ := List.mem_map.mp hx
  exact h r hr

/-- C9: metric collection fails soft — an erroring query for one resource
class degrades to `[]` while the other class is still collected — and CPU
statistics default to 0 when the 7-day window has no datapoints (or the
CloudWatch call itself fails). -/
theorem C9_collection_fails_soft :
    (∀ (ebsOut : Except Unit (List VolumeDesc)) (now : String),
        (collect_aws_metrics (.error ()) ebsOut now).ec2_instances = []
          ∧ (collect_aws_metrics (.error ()) ebsOut now).ebs_volumes = get_ebs_metrics ebsOut)
    ∧ (∀ (ec2Out : Except Unit (List Ec2Query)) (now : String),
        (collect_aws_metrics ec2Out (.error ()) now).ebs_volumes = []
          ∧ (collect_aws_metrics ec2Out (.error ()) now).ec2_instances = get_ec2_metrics ec2Out)
    ∧ get_cloudwatch_metric (.ok []) = { average := 0, max := 0 }
    ∧ get_cloudwatch_metric (.error ()) = { average := 0, max := 0 }
    ∧ (∀ q : Ec2Query, q.cpu_outcome = .ok [] →
        get_ec2_metrics (.ok [q])
          = [{ instance_id := q.instance_id, instance_type := q.instance_type, cpu_average := 0,
               cpu_max := 0, launch_time := q.launch_time }]) := by
  refine ⟨fun _ _ => ⟨rfl, rfl⟩, fun _ _ => ⟨rfl, rfl⟩, rfl, rfl, ?_⟩
  intro q h
  simp [get_ec2_metrics, h, get_cloudwatch_metric]

/-- C9 witness: a concrete instance whose CloudWatch window is empty is
collected with zero CPU statistics. -/
theorem C9_collection_fails_soft_witness :
    get_ec2_metrics
        (.ok [{ instance_id := "i-1", instance_type := "t2.micro", launch_time := "lt",
                cpu_outcome := .ok [] }])
      = [{ instance_id := "i-1", instance_type := "t2.micro", cpu_average := 0, cpu_max := 0,
           launch_time := "lt" }] :=
  C9_collection_fails_soft.2.2.2.2
    { instance_id := "i-1", instance_type := "t2.micro", launch_time := "lt",
      cpu_outcome := .ok [] } rfl

/-- C8: `get_latest_analysis` returns `None` both on an empty store and when
the scan raises, and a `None` fetch makes the stage-2 handler answer 404. -/
theorem C8_fetch_none_and_404 :
    get_latest_analysis (.error ()) = Option.none
    ∧ get_latest_analysis (.ok []) = Option.none
    ∧ (∀ (f : Except Unit (List StoredRecord)) (env : Env) (net : NetOutcome) (today : String),
        get_latest_analysis f = Option.none →
          (ai_lambda_handler f env net today).statusCode = 404) := by
  refine ⟨rfl, rfl, ?_⟩
  intro f env net today h
  simp [ai_lambda_handler, h]

/-- C8 witness: with a failing scan the handler concretely answers 404. -/
theorem C8_fetch_none_and_404_witness :
    (ai_lambda_handler (.error ()) {} .requestError "d").statusCode = 404 :=
  C8_fetch_none_and_404.2.2 (.error ()) {} .requestError "d" rfl

/-- The snapshot of a single 17 GB unattached volume, whose savings total
1.7 separates truncation from rounding. -/
def cx17_snapshot : AnalysisResults :=
  analyze_metrics "t0"
    { ec2_instances := []
      ebs_volumes :=
        [{ volume_id := "vol-17", size_gb := 17, state := "available", is_attached := false,
           created_time := "ct" }]
      timestamp := "tm" }

/-- C7 counterexample: the stored `total_potential_savings` is Python
`int(1.7) = 1`, not the rounded value 2, so "rounded to an integer" fails at
this snapshot. -/
theorem C7_roundtrip_counterexample :
    (store_results cx17_snapshot "id-1").total_potential_savings = 1
    ∧ roundHalfEven cx17_snapshot.total_potential_savings = 2
    ∧ (1 : Int) ≠ 2 := by
  refine ⟨by with_unfolding_all decide, by with_unfolding_all decide, by decide⟩

/-- C7 (amended): a snapshot stored and then fetched from a one-record store
comes back with matching `recommendations_count`, and the stored
`total_potential_savings` is the snapshot total truncated toward zero
(Python `int()`), not rounded. -/
theorem C7_store_fetch_roundtrip_truncates (s : AnalysisResults) (now_id : String) :
    get_latest_analysis (.ok [store_results s now_id])
        = some { id := now_id, timestamp := s.timestamp, data := s,
                 recommendations_count := s.recommendations.length }
      ∧ (store_results s now_id).recommendations_count = s.recommendations.length
      ∧ (store_results s now_id).total_potential_savings = pyInt s.total_potential_savings :=
  ⟨rfl, rfl, rfl⟩

/-- The environment selecting the unsupported provider name `claude`. -/
def env_bad : Env := { AI_PROVIDER := some "claude" }

/-- A fetched record used as stage-2 input in several concrete runs. -/
def cx_fetched : FetchedRecord :=
  { id := "id-1", timestamp := "t0", data := e2e_snapshot, recommendations_count := 2 }

/-- C5 counterexample: with provider `claude` the client construction does
raise, but stage 2 swallows it — `generate_ai_report` returns the pipeline
fallback report and the invocation succeeds with status 200 instead of
surfacing the error. -/
theorem C5_stage2_counterexample :
    mkAIClient env_bad = .error "Unsupported AI provider: claude"
    ∧ generate_ai_report cx_fetched env_bad .requestError "July 04, 2025"
        = .str (generate_fallback_report cx_fetched "July 04, 2025")
    ∧ (ai_lambda_handler (.ok [store_results e2e_snapshot "id-1"]) env_bad .requestError
        "July 04, 2025").statusCode = 200 :=
  ⟨rfl, rfl, rfl⟩

/-- C5 (amended): an unsupported provider name makes `AIClient()` raise
immediately at construction, but a stage-2 invocation does not surface the
error: `generate_ai_report` catches every exception and returns the pipeline
fallback report. -/
theorem C5_config_error_raised_but_swallowed (env : Env) (rec : FetchedRecord)
    (net : NetOutcome) (today : String)
    (h1 : pyLower (env.AI_PROVIDER.getD "groq") ≠ "groq")
    (h2 : pyLower (env.AI_PROVIDER.getD "groq") ≠ "openrouter")
    (h3 : pyLower (env.AI_PROVIDER.getD "groq") ≠ "ollama") :
    mkAIClient env
        = .error ("Unsupported AI provider: " ++ pyLower (env.AI_PROVIDER.getD "groq"))
    ∧ generate_ai_report rec env net today = .str (generate_fallback_report rec today) := by
  have hm : mkAIClient env
      = .error ("Unsupported AI provider: " ++ pyLower (env.AI_PROVIDER.getD "groq")) := by
    unfold mkAIClient _get_api_key
    simp only [if_neg h1, if_neg h2, if_neg h3]
    rfl
  exact ⟨hm, by unfold generate_ai_report; rw [hm]⟩

/-- C5 witness: the amended statement at the concrete provider `bedrock`. -/
theorem C5_config_error_raised_but_swallowed_witness :
    mkAIClient { AI_PROVIDER := some "bedrock" }
        = .error ("Unsupported AI provider: "
            ++ pyLower ((({ AI_PROVIDER := some "bedrock" } : Env)).AI_PROVIDER.getD "groq"))
    ∧ generate_ai_report cx_fetched { AI_PROVIDER := some "bedrock" } .requestError "d"
        = .str (generate_fallback_report cx_fetched "d") :=
  C5_config_error_raised_but_swallowed { AI_PROVIDER := some "bedrock" } cx_fetched
    .requestError "d" (by decide) (by decide) (by decide)

/-- Once the prompt is built, `generate_report` is exactly the provider
dispatch applied to it. -/
theorem generate_report_eq (c : AIClient) (v : PyVal) (net : NetOutcome) (p : String)
    (hb : _build_prompt v = .ok p) :
    generate_report c v net =
      if c.provider = "groq" then _call_groq p net
      else if c.provider = "openrouter" then _call_openrouter p net
      else if c.provider = "ollama" then _call_ollama p net
      else .error ("Unsupported provider: " ++ c.provider) := by
  unfold generate_report
  rw [hb]
  rfl

/-- C4: whenever the dispatched HTTP call fails (network error, timeout, or
non-2xx — all `RequestException`s raised inside the `_call_*` try blocks),
`generate_report` catches the failure and returns the fixed fallback text,
for every snapshot and every supported backend. -/
theorem C4_request_failure_returns_fallback (c : AIClient) (d : AnalysisResults)
    (hv : c.provider = "groq" ∨ c.provider = "openrouter" ∨ c.provider = "ollama") :
    generate_report c (analysis_to_py d) .requestError = .ok (.str fallback_text) := by
  rw [generate_report_eq c _ .requestError _ (build_prompt_analysis d)]
  rcases hv with h | h | h <;>
    simp [h, _call_groq, _call_openrouter, _call_ollama, _fallback_report]

/-- C4 witness: the concrete groq-configured client on the end-to-end
snapshot degrades to the fallback text. -/
theorem C4_request_failure_returns_fallback_witness :
    generate_report { provider := "groq", api_key := Option.none, model := "m" }
        (analysis_to_py e2e_snapshot) .requestError = .ok (.str fallback_text) :=
  C4_request_failure_returns_fallback
    { provider := "groq", api_key := Option.none, model := "m" } e2e_snapshot (Or.inl rfl)

/-- A constructed client with the default provider. -/
def groq_client : AIClient :=
  { provider := "groq", api_key := Option.none, model := "llama-3.1-70b-versatile" }

/-- A snapshot dictionary whose `total_potential_savings` is a string: the
f-string `:.2f` interpolation in `_build_prompt` raises `ValueError` on it. -/
def bad_snapshot : PyVal := .dict [("total_potential_savings", .str "many")]

/-- C3 counterexample: on a snapshot whose `total_potential_savings` has an
unexpected type, `generate_report` raises (the `ValueError` from the `.2f`
format is not caught), instead of returning a string. -/
theorem C3_unexpected_shape_counterexample :
    generate_report groq_client bad_snapshot .requestError
      = .error "ValueError: Unknown format code f" := rfl

/-- The documented response shape of each backend carrying the generated
text: `choices[0].message.content` for the chat backends, `response` for
ollama. -/
def response_shape (provider : String) (content : String) : PyVal :=
  if provider = "ollama" then .dict [("response", .str content)]
  else .dict [("choices", .list [.dict [("message", .dict [("content", .str content)])]])]

theorem extract_chat_shape (content : String) :
    extract_chat_content
        (.dict [("choices", .list [.dict [("message", .dict [("content", .str content)])]])])
      = .ok (.str content) := rfl

/-- C3 (amended): for every snapshot of the expected shape, `generate_report`
does not raise and returns a non-empty string, provided the backend call
either fails (yielding the fallback) or returns a well-shaped response with
non-empty content.  (Snapshots with unexpected field types can make it
raise — see the counterexample.) -/
theorem C3_wellshaped_never_raises (c : AIClient) (d : AnalysisResults) (net : NetOutcome)
    (hv : c.provider = "groq" ∨ c.provider = "openrouter" ∨ c.provider = "ollama")
    (hn : net = .requestError
        ∨ ∃ content, content ≠ "" ∧ net = .success (response_shape c.provider content)) :
    ∃ r : String, generate_report c (analysis_to_py d) net = .ok (.str r) ∧ r ≠ "" := by
  rcases hn with rfl | ⟨content, hc, rfl⟩
  · refine ⟨fallback_text, ?_, by decide⟩
    rw [generate_report_eq c _ .requestError _ (build_prompt_analysis d)]
    rcases hv with h | h | h <;>
      simp [h, _call_groq, _call_openrouter, _call_ollama, _fallback_report]
  · refine ⟨content, ?_, hc⟩
    rw [generate_report_eq c _ _ _ (build_prompt_analysis d)]
    rcases hv with h | h | h <;>
      simp [h, response_shape, _call_groq, _call_openrouter, _call_ollama,
        extract_chat_shape, pyItem, lookupStr]

/-- C3 witness: the concrete client on the end-to-end snapshot with a failed
backend call returns a non-empty report string. -/
theorem C3_wellshaped_never_raises_witness :
    ∃ r : String,
      generate_report groq_client (analysis_to_py e2e_snapshot) .requestError = .ok (.str r)
        ∧ r ≠ "" :=
  C3_wellshaped_never_raises groq_client e2e_snapshot .requestError (Or.inl rfl) (Or.inl rfl)

/-- Lists of equal length are equally empty. -/
theorem isEmpty_congr_of_length {α β : Type} {l1 : List α} {l2 : List β}
    (h : l1.length = l2.length) : l1.isEmpty = l2.isEmpty := by
  cases l1 <;> cases l2 <;> simp_all

/-- Six unattached volumes, so the analyzer emits six cleanup
recommendations `vol-1` … `vol-6`. -/
def c10_snapshot : AnalysisResults :=
  analyze_metrics "t0"
    { ec2_instances := []
      ebs_volumes :=
        [{ volume_id := "vol-1", size_gb := 10, state := "available", is_attached := false,
           created_time := "ct" },
         { volume_id := "vol-2", size_gb := 20, state := "available", is_attached := false,
           created_time := "ct" },
         { volume_id := "vol-3", size_gb := 30, state := "available", is_attached := false,
           created_time := "ct" },
         { volume_id := "vol-4", size_gb := 40, state := "available", is_attached := false,
           created_time := "ct" },
         { volume_id := "vol-5", size_gb := 50, state := "available", is_attached := false,
           created_time := "ct" },
         { volume_id := "vol-6", size_gb := 60, state := "available", is_attached := false,
           created_time := "ct" }]
      timestamp := "tm" }

/-- The fetched record carrying the six-recommendation snapshot. -/
def c10_fetched : FetchedRecord :=
  { id := "id-10", timestamp := "t0", data := c10_snapshot, recommendations_count := 6 }

/-- As `c10_snapshot` but with the sixth volume renamed: same totals, same
length, same first five recommendations. -/
def c10b_snapshot : AnalysisResults :=
  analyze_metrics "t0"
    { ec2_instances := []
      ebs_volumes :=
        [{ volume_id := "vol-1", size_gb := 10, state := "available", is_attached := false,
           created_time := "ct" },
         { volume_id := "vol-2", size_gb := 20, state := "available", is_attached := false,
           created_time := "ct" },
         { volume_id := "vol-3", size_gb := 30, state := "available", is_attached := false,
           created_time := "ct" },
         { volume_id := "vol-4", size_gb := 40, state := "available", is_attached := false,
           created_time := "ct" },
         { volume_id := "vol-5", size_gb := 50, state := "available", is_attached := false,
           created_time := "ct" },
         { volume_id := "vol-OTHER", size_gb := 60, state := "available", is_attached := false,
           created_time := "ct" }]
      timestamp := "tm" }

/-- The fetched record carrying the variant snapshot. -/
def c10b_fetched : FetchedRecord :=
  { id := "id-10b", timestamp := "t0", data := c10b_snapshot, recommendations_count := 6 }

set_option maxRecDepth 40000 in
set_option maxHeartbeats 4000000 in
/-- C10: the pipeline fallback report depends on the recommendation list only
through its length and its first five entries (so entries beyond the fifth
are omitted from the text), while the stated count reflects the full
sequence. -/
theorem C10_fallback_first_five :
    (∀ (a b : FetchedRecord) (today : String),
        a.data.total_potential_savings = b.data.total_potential_savings →
        a.data.recommendations.length = b.data.recommendations.length →
        a.data.recommendations.take 5 = b.data.recommendations.take 5 →
        generate_fallback_report a today = generate_fallback_report b today)
    ∧ (∀ (a : FetchedRecord) (today : String),
        segIn ("📊 RECOMMENDATIONS FOUND: " ++ toString a.data.recommendations.length)
          (generate_fallback_report a today))
    ∧ (∀ recs : List Recommendation, fallback_rec_lines recs = fallback_rec_lines (recs.take 5))
    ∧ c10_fetched.data.recommendations.length = 6 := by
  refine ⟨?_, ?_, ?_, by with_unfolding_all decide⟩
  · intro a b today h1 h2 h3
    have h4 : fallback_rec_lines a.data.recommendations
        = fallback_rec_lines b.data.recommendations := by
      unfold fallback_rec_lines
      rw [h3]
    have h5 := isEmpty_congr_of_length h2
    unfold generate_fallback_report
    rw [h1, h2, h5, h4]
  · intro a today
    refine ⟨(("\n" ++ barLine ++ "\n AWS COST OPTIMIZATION REPORT\n " ++ today ++ "\n" ++ barLine
        ++ "\n\n💰 POTENTIAL MONTHLY SAVINGS: $"
        ++ fmt2 a.data.total_potential_savings ++ "\n\n") : String).data,
      (("\n\n"
        ++ (if a.data.recommendations.isEmpty then
              "✅ No optimization opportunities found at this time.\n"
                ++ "Your infrastructure appears well-optimized!\n\n"
            else "🎯 TOP RECOMMENDATIONS:\n\n"
              ++ fallback_rec_lines a.data.recommendations)
        ++ "\n" ++ barLine ++ "\nNext analysis: Next scheduled run\n" ++ barLine ++ "\n")
          : String).data, ?_⟩
    have hsplit : ("\n\n📊 RECOMMENDATIONS FOUND: " : String).data
        = ("\n\n" : String).data ++ ("📊 RECOMMENDATIONS FOUND: " : String).data := by decide
    simp [generate_fallback_report, str_append_data, List.append_assoc, hsplit]
  · intro recs
    unfold fallback_rec_lines
    rw [List.take_take]
    simp

set_option maxRecDepth 40000 in
set_option maxHeartbeats 4000000 in
/-- C10 witness: the two concrete six-recommendation records that agree on
total, length and first five entries produce the identical report. -/
theorem C10_fallback_first_five_witness :
    generate_fallback_report c10_fetched "d" = generate_fallback_report c10b_fetched "d" :=
  C10_fallback_first_five.1 c10_fetched c10b_fetched "d"
    (by with_unfolding_all decide) (by with_unfolding_all decide)
    (by with_unfolding_all decide)

/-- A snapshot dictionary with one 5%-CPU instance and one unattached
volume (and, as stored `data` is arbitrary JSON, an empty recommendation
list). -/
def c6_low : AnalysisResults :=
  { timestamp := "t"
    metrics :=
      { ec2_instances :=
          [{ instance_id := "i-1", instance_type := "t3.micro", cpu_average := 5, cpu_max := 10,
             launch_time := "lt" }]
        ebs_volumes :=
          [{ volume_id := "vol-1", size_gb := 100, state := "available", is_attached := false,
             created_time := "ct" }]
        timestamp := "tm" }
    recommendations := []
    total_potential_savings := 0 }

/-- As `c6_low` but with a 50%-CPU instance and the volume attached: both
summary counts from the spec differ, yet the built prompt is identical. -/
def c6_high : AnalysisResults :=
  { timestamp := "t"
    metrics :=
      { ec2_instances :=
          [{ instance_id := "i-1", instance_type := "t3.micro", cpu_average := 50, cpu_max := 10,
             launch_time := "lt" }]
        ebs_volumes :=
          [{ volume_id := "vol-1", size_gb := 100, state := "in-use", is_attached := true,
             created_time := "ct" }]
        timestamp := "tm" }
    recommendations := []
    total_potential_savings := 0 }

set_option maxRecDepth 40000 in
/-- C6 counterexample: `_build_prompt` — the prompt builder actually used by
`generate_report` — produces the *same* prompt for two snapshots whose
under-utilized-instance counts (1 vs 0) and unattached-volume counts
(1 vs 0) differ, so the prompt embeds neither count.  (Those counts are
rendered only by `prompt_templates.get_cost_analysis_prompt`, which
`generate_report` never calls.) -/
theorem C6_counts_not_embedded_counterexample :
    _build_prompt (analysis_to_py c6_low) = _build_prompt (analysis_to_py c6_high)
    ∧ (c6_low.metrics.ec2_instances.filter (fun i => i.cpu_average < 15)).length = 1
    ∧ (c6_high.metrics.ec2_instances.filter (fun i => i.cpu_average < 15)).length = 0
    ∧ (c6_low.metrics.ebs_volumes.filter (fun v => !v.is_attached)).length = 1
    ∧ (c6_high.metrics.ebs_volumes.filter (fun v => !v.is_attached)).length = 0 := by
  refine ⟨rfl, by with_unfolding_all decide, by with_unfolding_all decide,
    by with_unfolding_all decide, by with_unfolding_all decide⟩

/-- Each element of a JSON array dump occurs contiguously in the rendered
item list. -/
theorem mem_dumpsItems_infix (ind : Nat) (r : PyVal) :
    ∀ (xs : List PyVal) (x : PyVal), r ∈ x :: xs →
      ∃ a b : List Char, (pyDumpsItems ind x xs).data = a ++ ((pyDumpsAt ind r).data ++ b) := by
  intro xs
  induction xs with
  | nil =>
    intro x h
    rw [List.mem_singleton] at h
    subst h
    refine ⟨(spaces ind).data, [], ?_⟩
    simp [pyDumpsItems, str_append_data]
  | cons y ys ih =>
    intro x h
    rcases List.mem_cons.mp h with rfl | hmem
    · refine ⟨(spaces ind).data, (",\n" ++ pyDumpsItems ind y ys).data, ?_⟩
      simp [pyDumpsItems, str_append_data, List.append_assoc]
    · obtain ⟨a, b, hab⟩ := ih y hmem
      refine ⟨(spaces ind ++ pyDumpsAt ind x ++ ",\n").data ++ a, b, ?_⟩
      simp [pyDumpsItems, str_append_data, List.append_assoc, hab]

set_option maxRecDepth 40000 in
/-- C6 (amended): the prompt actually built embeds the two resource counts,
the 2-decimal total savings, and the JSON rendering of every recommendation
(which carries its type, resource id, message and savings fields); the
under-utilized and unattached counts are not embedded (see the
counterexample). -/
theorem C6_prompt_embeds (d : AnalysisResults) :
    _build_prompt (analysis_to_py d) = .ok (promptOf d)
    ∧ segIn ("- EC2 Instances: " ++ toString d.metrics.ec2_instances.length) (promptOf d)
    ∧ segIn ("- EBS Volumes: " ++ toString d.metrics.ebs_volumes.length) (promptOf d)
    ∧ segIn ("- Total Potential Savings: $" ++ fmt2 d.total_potential_savings ++ "/month")
        (promptOf d)
    ∧ ∀ r ∈ d.recommendations, segIn (pyDumpsAt 2 (rec_to_py r)) (promptOf d) := by
  refine ⟨build_prompt_analysis d, ?_, ?_, ?_, ?_⟩
  · refine ⟨(("You are an AWS cost optimization expert. Analyze this infrastructure data and create a clear, actionable cost optimization report.\n\nINFRASTRUCTURE SUMMARY:\n" : String)).data,
      (("\n- EBS Volumes: " ++ toString (d.metrics.ebs_volumes.map vol_to_py).length
        ++ "\n- Total Potential Savings: $" ++ fmt2 d.total_potential_savings
        ++ "/month\n\nRECOMMENDATIONS FOUND:\n"
        ++ pyDumps (.list (d.recommendations.map rec_to_py))
        ++ "\n\nCreate a professional cost optimization report with:\n1. Executive Summary (2-3 sentences)\n2. Top 3 Priority Actions (with specific resource IDs and savings)\n3. Quick Wins (easy to implement)\n4. Long-term Optimizations\n\nUse clear formatting with emojis for readability. Be specific and actionable.\nKeep the tone professional but friendly.") : String).data,
      ?_⟩
    have hsplit : ("You are an AWS cost optimization expert. Analyze this infrastructure data and create a clear, actionable cost optimization report.\n\nINFRASTRUCTURE SUMMARY:\n- EC2 Instances: " : String).data
        = ("You are an AWS cost optimization expert. Analyze this infrastructure data and create a clear, actionable cost optimization report.\n\nINFRASTRUCTURE SUMMARY:\n" : String).data
          ++ ("- EC2 Instances: " : String).data := by decide
    simp [promptOf, str_append_data, List.append_assoc, hsplit, List.length_map]
  · refine ⟨(("You are an AWS cost optimization expert. Analyze this infrastructure data and create a clear, actionable cost optimization report.\n\nINFRASTRUCTURE SUMMARY:\n- EC2 Instances: "
        ++ toString (d.metrics.ec2_instances.map ec2_to_py).length ++ "\n") : String).data,
      (("\n- Total Potential Savings: $" ++ fmt2 d.total_potential_savings
        ++ "/month\n\nRECOMMENDATIONS FOUND:\n"
        ++ pyDumps (.list (d.recommendations.map rec_to_py))
        ++ "\n\nCreate a professional cost optimization report with:\n1. Executive Summary (2-3 sentences)\n2. Top 3 Priority Actions (with specific resource IDs and savings)\n3. Quick Wins (easy to implement)\n4. Long-term Optimizations\n\nUse clear formatting with emojis for readability. Be specific and actionable.\nKeep the tone professional but friendly.") : String).data,
      ?_⟩
    have hsplit : ("\n- EBS Volumes: " : String).data
        = ("\n" : String).data ++ ("- EBS Volumes: " : String).data := by decide
    simp [promptOf, str_append_data, List.append_assoc, hsplit, List.length_map]
  · refine ⟨(("You are an AWS cost optimization expert. Analyze this infrastructure data and create a clear, actionable cost optimization report.\n\nINFRASTRUCTURE SUMMARY:\n- EC2 Instances: "
        ++ toString (d.metrics.ec2_instances.map ec2_to_py).length ++ "\n- EBS Volumes: "
        ++ toString (d.metrics.ebs_volumes.map vol_to_py).length ++ "\n") : String).data,
      (("\n\nRECOMMENDATIONS FOUND:\n"
        ++ pyDumps (.list (d.recommendations.map rec_to_py))
        ++ "\n\nCreate a professional cost optimization report with:\n1. Executive Summary (2-3 sentences)\n2. Top 3 Priority Actions (with specific resource IDs and savings)\n3. Quick Wins (easy to implement)\n4. Long-term Optimizations\n\nUse clear formatting with emojis for readability. Be specific and actionable.\nKeep the tone professional but friendly.") : String).data,
      ?_⟩
    have hsplit1 : ("\n- Total Potential Savings: $" : String).data
        = ("\n" : String).data ++ ("- Total Potential Savings: $" : String).data := by decide
    have hsplit2 : ("/month\n\nRECOMMENDATIONS FOUND:\n" : String).data
        = ("/month" : String).data ++ ("\n\nRECOMMENDATIONS FOUND:\n" : String).data := by decide
    simp [promptOf, str_append_data, List.append_assoc, hsplit1, hsplit2]
  · intro r hr
    rcases hd : d.recommendations with _ | ⟨r0, rest⟩
    · rw [hd] at hr
      simp at hr
    · have hmem : rec_to_py r ∈ rec_to_py r0 :: rest.map rec_to_py := by
        have h1 : rec_to_py r ∈ (r0 :: rest).map rec_to_py :=
          List.mem_map_of_mem _ (hd ▸ hr)
        simpa using h1
      obtain ⟨a, b, hab⟩ :=
        mem_dumpsItems_infix 2 (rec_to_py r) (rest.map rec_to_py) (rec_to_py r0) hmem
      have hdumps : pyDumps (.list (d.recommendations.map rec_to_py))
          = "[\n" ++ pyDumpsItems 2 (rec_to_py r0) (rest.map rec_to_py)
              ++ "\n" ++ spaces 0 ++ "]" := by
        rw [hd]
        simp [pyDumps, pyDumpsAt]
      refine ⟨(("You are an AWS cost optimization expert. Analyze this infrastructure data and create a clear, actionable cost optimization report.\n\nINFRASTRUCTURE SUMMARY:\n- EC2 Instances: "
          ++ toString (d.metrics.ec2_instances.map ec2_to_py).length ++ "\n- EBS Volumes: "
          ++ toString (d.metrics.ebs_volumes.map vol_to_py).length
          ++ "\n- Total Potential Savings: $" ++ fmt2 d.total_potential_savings
          ++ "/month\n\nRECOMMENDATIONS FOUND:\n" ++ "[\n") : String).data ++ a,
        b ++ (("\n" ++ spaces 0 ++ "]"
          ++ "\n\nCreate a professional cost optimization report with:\n1. Executive Summary (2-3 sentences)\n2. Top 3 Priority Actions (with specific resource IDs and savings)\n3. Quick Wins (easy to implement)\n4. Long-term Optimizations\n\nUse clear formatting with emojis for readability. Be specific and actionable.\nKeep the tone professional but friendly.") : String).data,
        ?_⟩
      simp [promptOf, hdumps, str_append_data, List.append_assoc, hab]

set_option maxRecDepth 40000 in
/-- C6 witness: the amended statement concretely — the end-to-end snapshot's
prompt contains its resource counts, its formatted total and the dump of its
first recommendation. -/
theorem C6_prompt_embeds_witness :
    segIn ("- EC2 Instances: " ++ toString e2e_snapshot.metrics.ec2_instances.length)
        (promptOf e2e_snapshot)
    ∧ segIn ("- Total Potential Savings: $" ++ fmt2 e2e_snapshot.total_potential_savings
        ++ "/month") (promptOf e2e_snapshot)
    ∧ segIn (pyDumpsAt 2 (rec_to_py (rightsize_rec
        { instance_id := "i-low", instance_type := "t3.large", cpu_average := 5, cpu_max := 20,
          launch_time := "lt1" }))) (promptOf e2e_snapshot) :=
  ⟨(C6_prompt_embeds e2e_snapshot).2.1,
   (C6_prompt_embeds e2e_snapshot).2.2.2.1,
   (C6_prompt_embeds e2e_snapshot).2.2.2.2 _ (by with_unfolding_all decide)⟩

